import Mathlib

/-!
Shallow embedding of the trading bot in `src/main.py` (alpaca-btc-bot).

Prices and volumes are modelled as rationals (`ℚ`): every float the decision
logic compares is finite unless a division by zero occurs, and the places
where the Python code can produce a NaN/∞ (an unguarded division) are
modelled explicitly with `Option`.  Timestamps and calendar days are
abstracted to `Nat` tokens: the code only ever compares them for equality
(`last_bar_time == bar_time`, `last_trade_day != bar_time.date()`).
-/

namespace AlpacaBot

/-! ### Configuration constants (src/main.py lines 36-53) -/

def RISK_REWARD : ℚ := 5 / 2

def MAX_TRADES_PER_DAY : Nat := 10

def COOLDOWN_BARS : Nat := 10

def ATR_PERIOD : Nat := 14

def SL_ATR_BUFFER : ℚ := 1 / 10

def MIN_BODY_PCT : ℚ := 1 / 5

def VOL_MULT : ℚ := 21 / 20

def USE_BODY_FILTER : Bool := false

def USE_VOLUME_FILTER : Bool := false

def USE_EMA_FILTER : Bool := true

/-- The epsilon `1e-8` added to `high - low` in `body_pct` (line 241). -/
def EPS : ℚ := 1 / 100000000

/-! ### Data model -/

/-- One OHLCV bar, as a row of the dataframe returned by `get_bars`.
`time` abstracts the bar timestamp (`df['time']`), `day` its calendar date
(`df['time'].dt.date` / `bar_time.date()`); the code only compares these
for equality, so `Nat` tokens suffice.  The volume column is renamed to
`tick_volume` by `get_bars` (line 99). -/
structure Bar where
  time : Nat
  day : Nat
  open_p : ℚ
  high : ℚ
  low : ℚ
  close : ℚ
  tick_volume : ℚ
deriving DecidableEq

/-- A bid/ask quote as returned by `get_latest_quote` (lines 105-113);
on a fetch failure the function returns zeroed prices. -/
structure Quote where
  bid : ℚ
  ask : ℚ
deriving DecidableEq

/-! ### Indicator engine: ATR (src/main.py lines 118-123) -/

/-- Tail of the true-range series: each element after the first sees the
previous bar's close.  `tr[i] = max(high[i]-low[i], |high[i]-close[i-1]|,
|low[i]-close[i-1]|)`. -/
def trAux (prev : Bar) : List Bar → List ℚ
  | [] => []
  | b :: rest =>
      max (b.high - b.low) (max |b.high - prev.close| |b.low - prev.close|) :: trAux b rest

/-- The true-range series of `atr`.  For the first bar `close.shift()` is
NaN in pandas, and `DataFrame.max(axis=1)` skips NaNs, so
`tr[0] = high[0] - low[0]`. -/
def trueRange : List Bar → List ℚ
  | [] => []
  | b :: rest => (b.high - b.low) :: trAux b rest

/-- `Series.rolling(period).mean()`: position `i` holds the mean of the
trailing `period` values once `period` values are available (`i + 1 ≥
period`, 0-based) and is NaN (`none`) before that. -/
def rollingMean (xs : List ℚ) (period : Nat) : List (Option ℚ) :=
  (List.range xs.length).map fun i =>
    if period ≤ i + 1 then
      some ((((xs.take (i + 1)).drop (i + 1 - period)).sum) / (period : ℚ))
    else none

/-- `atr(df, period)` from lines 118-123: rolling mean of the true range. -/
def atr (df : List Bar) (period : Nat) : List (Option ℚ) :=
  rollingMean (trueRange df) period

/-! ### Indicator engine: session VWAP (src/main.py lines 125-131) -/

/-- `tp = (high + low + close) / 3` (line 126). -/
def typical_price (b : Bar) : ℚ := (b.high + b.low + b.close) / 3

/-- `pv = tp * tick_volume` (line 128). -/
def pv (b : Bar) : ℚ := typical_price b * b.tick_volume

/-- `df.groupby('day')[col].cumsum()`: at row `i`, the sum of `f` over all
rows `j ≤ i` whose calendar day equals row `i`'s day. -/
def cumByDay (f : Bar → ℚ) (df : List Bar) : List ℚ :=
  df.enum.map fun p => (((df.take (p.1 + 1)).filter fun b => b.day = p.2.day).map f).sum

/-- `cum_pv` (line 129). -/
def cum_pv (df : List Bar) : List ℚ := cumByDay pv df

/-- `cum_vol` (line 130). -/
def cum_vol (df : List Bar) : List ℚ := cumByDay (fun b => b.tick_volume) df

/-- `vwap(df) = cum_pv / cum_vol` (line 131).  The source divides with no
guard; in float arithmetic a zero cumulative volume yields NaN (0/0) or ±∞.
We model that undefined value as `none` and a finite quotient as `some`. -/
def vwap (df : List Bar) : List (Option ℚ) :=
  List.zipWith (fun p v => if v = 0 then none else some (p / v)) (cum_pv df) (cum_vol df)

/-! ### Per-cycle scalar inputs (src/main.py lines 229-252)

`run_strategy` reads these values off the freshly computed dataframes once
per new bar: last-bar OHLCV, the prior bar's volume, the last indicator
values, and the two most recent higher-timeframe bars' fields.  The cycle
model below takes them as an environment record. -/

structure Inputs where
  close : ℚ
  open_p : ℚ
  high : ℚ
  low : ℚ
  vol : ℚ
  vol_prev : ℚ
  atr_val : ℚ
  ema_f : ℚ
  ema_s : ℚ
  vwap_val : ℚ
  htf_close : ℚ
  htf_open : ℚ
  htf_high_prev : ℚ
  htf_low_prev : ℚ
deriving DecidableEq

/-! ### Signal evaluator (src/main.py lines 241-259)

The three `USE_*` toggles are module constants in the source; the `G`
versions take them as parameters so that properties can be stated for every
toggle combination, and the unprimed forms fix them to the configured
values, exactly as the code reads the globals. -/

/-- `body_pct = abs(close - open_p) / (high - low + 1e-8)` (line 241). -/
def body_pct (i : Inputs) : ℚ := |i.close - i.open_p| / (i.high - i.low + EPS)

/-- The denominator of `body_pct` (line 241). -/
def body_den (i : Inputs) : ℚ := i.high - i.low + EPS

/-- `bullish` (line 242), toggle-generic. -/
abbrev bullishG (ub : Bool) (i : Inputs) : Prop :=
  i.close > i.open_p ∧ (body_pct i ≥ MIN_BODY_PCT ∨ ub = false)

/-- `bearish` (line 243), toggle-generic. -/
abbrev bearishG (ub : Bool) (i : Inputs) : Prop :=
  i.close < i.open_p ∧ (body_pct i ≥ MIN_BODY_PCT ∨ ub = false)

/-- `vol_ok` (line 244), toggle-generic. -/
abbrev vol_okG (uv : Bool) (i : Inputs) : Prop :=
  i.vol ≥ i.vol_prev * VOL_MULT ∨ uv = false

/-- `trend_up` (line 246), toggle-generic. -/
abbrev trend_upG (ue : Bool) (i : Inputs) : Prop :=
  ue = false ∨ (i.ema_f > i.ema_s ∧ i.close > i.vwap_val)

/-- `trend_down` (line 247), toggle-generic. -/
abbrev trend_downG (ue : Bool) (i : Inputs) : Prop :=
  ue = false ∨ (i.ema_f < i.ema_s ∧ i.close < i.vwap_val)

abbrev bullish (i : Inputs) : Prop := bullishG USE_BODY_FILTER i

abbrev bearish (i : Inputs) : Prop := bearishG USE_BODY_FILTER i

abbrev vol_ok (i : Inputs) : Prop := vol_okG USE_VOLUME_FILTER i

abbrev trend_up (i : Inputs) : Prop := trend_upG USE_EMA_FILTER i

abbrev trend_down (i : Inputs) : Prop := trend_downG USE_EMA_FILTER i

/-- `htf_bull = htf close > htf open` (line 249). -/
abbrev htf_bull (i : Inputs) : Prop := i.htf_close > i.htf_open

/-- `htf_bear = htf close < htf open` (line 250). -/
abbrev htf_bear (i : Inputs) : Prop := i.htf_close < i.htf_open

/-- `sl_long = htf_low_prev - atr_val * SL_ATR_BUFFER` (line 256). -/
def sl_long (i : Inputs) : ℚ := i.htf_low_prev - i.atr_val * SL_ATR_BUFFER

/-- `tp_long = close + (close - sl_long) * RISK_REWARD` (line 257). -/
def tp_long (i : Inputs) : ℚ := i.close + (i.close - sl_long i) * RISK_REWARD

/-- `sl_short = htf_high_prev + atr_val * SL_ATR_BUFFER` (line 258). -/
def sl_short (i : Inputs) : ℚ := i.htf_high_prev + i.atr_val * SL_ATR_BUFFER

/-- `tp_short = close - (sl_short - close) * RISK_REWARD` (line 259). -/
def tp_short (i : Inputs) : ℚ := i.close - (sl_short i - i.close) * RISK_REWARD

/-! ### Strategy state (src/main.py lines 194-200) -/

/-- `last_signal`: `"BUY"` or `"SELL"`. -/
inductive Side where
  | buy
  | sell
deriving DecidableEq

/-- The loop-local mutable state of `run_strategy` (lines 194-200).
`cooldown` is a `Nat` because the code only assigns `COOLDOWN_BARS` and
decrements under a positivity guard, so it never goes negative.
`last_signal` and `last_risk` start out as Python `None`. -/
structure BotState where
  trades_today : Nat
  last_trade_day : Option Nat
  cooldown : Nat
  last_bar_time : Option Nat
  in_trade : Bool
  last_signal : Option Side
  last_risk : Option ℚ
deriving DecidableEq

/-- The initial state set at lines 194-200. -/
def initState : BotState :=
  { trades_today := 0, last_trade_day := none, cooldown := 0, last_bar_time := none,
    in_trade := false, last_signal := none, last_risk := none }

/-- `can_enter = cooldown == 0 and trades_today < MAX_TRADES_PER_DAY`
(line 254). -/
abbrev can_enter (s : BotState) : Prop :=
  s.cooldown = 0 ∧ s.trades_today < MAX_TRADES_PER_DAY

/-- The long entry test of line 273, toggle-generic:
`can_enter and htf_bull and trend_up and bullish and vol_ok and not in_trade`. -/
abbrev longCondG (ub uv ue : Bool) (i : Inputs) (s : BotState) : Prop :=
  can_enter s ∧ htf_bull i ∧ trend_upG ue i ∧ bullishG ub i ∧ vol_okG uv i ∧
    s.in_trade = false

/-- The short entry test of line 283, toggle-generic. -/
abbrev shortCondG (ub uv ue : Bool) (i : Inputs) (s : BotState) : Prop :=
  can_enter s ∧ htf_bear i ∧ trend_downG ue i ∧ bearishG ub i ∧ vol_okG uv i ∧
    s.in_trade = false

abbrev longCond (i : Inputs) (s : BotState) : Prop :=
  longCondG USE_BODY_FILTER USE_VOLUME_FILTER USE_EMA_FILTER i s

abbrev shortCond (i : Inputs) (s : BotState) : Prop :=
  shortCondG USE_BODY_FILTER USE_VOLUME_FILTER USE_EMA_FILTER i s

/-! ### Order execution (src/main.py lines 176-190) -/

/-- `place_order` (lines 176-190), reduced to its observable effects.
`q` is the quote `place_order` fetches itself at line 177; `submit_ok`
says whether `trading_client.submit_order` (line 184) returns normally.
Result: the success flag returned to the caller, paired with the subjects
of the emails sent.  If the quote is zeroed (fetch failure) the function
returns early with no email; if the broker raises, the `except` branch
(lines 188-190) only prints `ORDER FAILED` — `send_email` is reached on
the success path alone (line 186). -/
def place_order (q : Quote) (submit_ok : Bool) : Bool × List String :=
  if q.ask = 0 then (false, [])
  else if submit_ok then (true, ["TRADE OPENED"])
  else (false, [])

/-! ### Position tracker (src/main.py lines 293-309) -/

/-- The `if in_trade:` exit-check block (lines 293-309).
* `posq` models `trading_client.get_position(SYMBOL)`: `some entry` is a
  normal return with `avg_entry_price = entry`; `none` is an exception,
  caught by the bare `except` at line 308, which sets `in_trade = False`.
* `risk = none` models `last_risk` still being Python `None`: the
  comparison `entry - None` would raise a `TypeError`, landing in the same
  `except` branch (unreachable for positions opened by this loop).
* `close_ok` is whether `trading_client.close_position` returns normally;
  it cannot influence the resulting state because the success path (lines
  302, 307) and the `except` path (line 309) both set `in_trade = False`.
Result: (`in_trade` afterwards, whether a close was requested). -/
def trackerStep (sig : Option Side) (risk : Option ℚ) (posq : Option ℚ)
    (q : Quote) (close_ok : Bool) : Bool × Bool :=
  match posq with
  | none => (false, false)
  | some entry =>
    match risk with
    | none => (false, false)
    | some r =>
      let price : ℚ := if sig = some Side.buy then q.bid else q.ask
      if (sig = some Side.buy ∧ price ≤ entry - r) ∨
         (sig = some Side.sell ∧ price ≥ entry + r) then
        (false, true)
      else if (sig = some Side.buy ∧ price ≥ entry + r * RISK_REWARD) ∨
              (sig = some Side.sell ∧ price ≤ entry - r * RISK_REWARD) then
        (false, true)
      else (true, false)

/-! ### Cycle driver (src/main.py lines 205-316) -/

/-- Everything one iteration of the `while True` loop observes from the
outside world. -/
structure CycleEnv where
  /-- Lines 207-211: both fetches succeeded and `len(ltf) ≥ 50`,
  `len(htf) ≥ 10`; otherwise the iteration `continue`s. -/
  data_ok : Bool
  /-- `bar_time = ltf['time'].iloc[-1]` (line 213). -/
  bar_time : Nat
  /-- `bar_time.date()` (line 219). -/
  bar_day : Nat
  /-- The scalars read at lines 229-252 from the computed dataframes. -/
  ind : Inputs
  /-- `quote = get_latest_quote()` at line 262, used by the exit check. -/
  quote : Quote
  /-- The quote `place_order` fetches for itself at line 177. -/
  order_quote : Quote
  /-- Whether `submit_order` (line 184) returns normally. -/
  submit_ok : Bool
  /-- `get_position` in the exit check (line 295): `some avg_entry_price`
  or `none` for an exception. -/
  pos_query : Option ℚ
  /-- Whether `close_position` (lines 300, 305) returns normally. -/
  close_ok : Bool
deriving DecidableEq

/-- Observable events of one loop iteration (prints, emails, which blocks
ran), used to state the claims about control flow. -/
structure CycleLog where
  /-- The iteration ended at one of the two `continue`s (line 211 or 216). -/
  skipped : Bool
  /-- The indicator/signal pipeline (lines 224-291) ran. -/
  evaluated_signal : Bool
  /-- The value of `can_enter` computed at line 254 (false when skipped). -/
  can_enter_val : Bool
  /-- One of the two entry branches was taken and `place_order` called. -/
  order_attempted : Bool
  /-- `place_order` returned success. -/
  order_success : Bool
  /-- Subjects of emails sent from the entry branches. -/
  emails : List String
  /-- The `if in_trade:` exit-check block (line 293) was entered. -/
  exit_check_ran : Bool
  /-- `close_position` was requested by the exit check. -/
  close_requested : Bool
deriving DecidableEq

/-- The log of an iteration that ended at a `continue`. -/
def skipLog : CycleLog :=
  { skipped := true, evaluated_signal := false, can_enter_val := false,
    order_attempted := false, order_success := false, emails := [],
    exit_check_ran := false, close_requested := false }

/-- Lines 217-222: record the new bar time, then reset the daily counters
when the calendar day changed (`last_trade_day != bar_time.date()`). -/
def rollover (s : BotState) (e : CycleEnv) : BotState :=
  let s1 := { s with last_bar_time := some e.bar_time }
  if s1.last_trade_day = some e.bar_day then s1
  else { s1 with trades_today := 0, last_trade_day := some e.bar_day, cooldown := 0 }

/-- Lines 273-291: the `if`/`elif` entry branches.  On a successful order
the throttle and position fields are updated; note `last_risk` is set to
`close - sl_long` (line 281) or `sl_short - close` (line 291), from the
bar close, with no absolute value. -/
def entryStep (s2 : BotState) (e : CycleEnv) : BotState × CycleLog :=
  let i := e.ind
  let baseLog : CycleLog :=
    { skipped := false, evaluated_signal := true,
      can_enter_val := decide (can_enter s2), order_attempted := false,
      order_success := false, emails := [], exit_check_ran := false,
      close_requested := false }
  if longCond i s2 then
    let po := place_order e.order_quote e.submit_ok
    if po.1 then
      ({ s2 with trades_today := s2.trades_today + 1, cooldown := COOLDOWN_BARS,
                 in_trade := true, last_signal := some Side.buy,
                 last_risk := some (i.close - sl_long i) },
       { baseLog with order_attempted := true, order_success := true, emails := po.2 })
    else (s2, { baseLog with order_attempted := true, emails := po.2 })
  else if shortCond i s2 then
    let po := place_order e.order_quote e.submit_ok
    if po.1 then
      ({ s2 with trades_today := s2.trades_today + 1, cooldown := COOLDOWN_BARS,
                 in_trade := true, last_signal := some Side.sell,
                 last_risk := some (sl_short i - i.close) },
       { baseLog with order_attempted := true, order_success := true, emails := po.2 })
    else (s2, { baseLog with order_attempted := true, emails := po.2 })
  else (s2, baseLog)

/-- Lines 293-309: run the tracker only when `in_trade`. -/
def exitStep (s3 : BotState) (e : CycleEnv) (log : CycleLog) : BotState × CycleLog :=
  if s3.in_trade then
    let r := trackerStep s3.last_signal s3.last_risk e.pos_query e.quote e.close_ok
    ({ s3 with in_trade := r.1 },
     { log with exit_check_ran := true, close_requested := r.2 })
  else (s3, log)

/-- Lines 311-312: `if cooldown > 0: cooldown -= 1`. -/
def decay (s4 : BotState) : BotState :=
  if 0 < s4.cooldown then { s4 with cooldown := s4.cooldown - 1 } else s4

/-- The body of the loop after the dedupe check (lines 217-312). -/
def newBarStep (s : BotState) (e : CycleEnv) : BotState × CycleLog :=
  let s2 := rollover s e
  let r3 := entryStep s2 e
  let r4 := exitStep r3.1 e r3.2
  (decay r4.1, r4.2)

/-- One full iteration of the `while True` loop (lines 205-316).
The first guard is the fetch/length check ending in `continue` (lines
207-211); the second is the bar-time dedupe (lines 214-216), which
`continue`s before anything else — including the exit check — runs. -/
def cycleStep (s : BotState) (e : CycleEnv) : BotState × CycleLog :=
  if e.data_ok = false then (s, skipLog)
  else if s.last_bar_time = some e.bar_time then (s, skipLog)
  else newBarStep s e

/-! ### Concrete scenario data used by counterexamples and witnesses -/

/-- Entry-timeframe scalars with every long condition satisfied except the
higher-timeframe bias, which is bearish (`htf_close 9 < htf_open 10`). -/
def w8Inputs : Inputs :=
  { close := 100, open_p := 90, high := 101, low := 89, vol := 2, vol_prev := 1,
    atr_val := 1, ema_f := 2, ema_s := 1, vwap_val := 50, htf_close := 9,
    htf_open := 10, htf_high_prev := 120, htf_low_prev := 80 }

/-- A throttle state permitting entry with no open position. -/
def w8State : BotState :=
  { trades_today := 0, last_trade_day := some 0, cooldown := 0, last_bar_time := none,
    in_trade := false, last_signal := none, last_risk := none }

/-- Scalars that fire the Long test of line 273 (bullish candle, uptrend,
bullish higher timeframe, filters satisfied) but with a degenerate stop:
`sl_long = 200 - 0 * 0.1 = 200` lies above the close 100. -/
def longInputs : Inputs :=
  { close := 100, open_p := 90, high := 101, low := 89, vol := 1, vol_prev := 1,
    atr_val := 0, ema_f := 2, ema_s := 1, vwap_val := 50, htf_close := 10,
    htf_open := 5, htf_high_prev := 120, htf_low_prev := 200 }

/-- A fresh state on trading day 0: no trades yet, no cooldown, no
position, no bar seen. -/
def freshState : BotState :=
  { trades_today := 0, last_trade_day := some 0, cooldown := 0, last_bar_time := none,
    in_trade := false, last_signal := none, last_risk := none }

/-- An environment in which the long entry fires and the broker accepts
the order. -/
def longEnv : CycleEnv :=
  { data_ok := true, bar_time := 1, bar_day := 0, ind := longInputs,
    quote := ⟨99, 100⟩, order_quote := ⟨99, 100⟩, submit_ok := true,
    pos_query := some 100, close_ok := true }

/-- The same environment but the broker rejects the order. -/
def longFailEnv : CycleEnv :=
  { longEnv with submit_ok := false }

/-- A state holding an open Long: entry tracked against risk 500, three
cooldown bars left, last seen bar timestamp 5. -/
def openState : BotState :=
  { trades_today := 1, last_trade_day := some 0, cooldown := 3, last_bar_time := some 5,
    in_trade := true, last_signal := some Side.buy, last_risk := some 500 }

/-- An environment repeating bar timestamp 5 while the live bid 49000 is
far through the stop threshold of the tracked position (entry 50000,
risk 500). -/
def staleEnv : CycleEnv :=
  { data_ok := true, bar_time := 5, bar_day := 0, ind := longInputs,
    quote := ⟨49000, 49001⟩, order_quote := ⟨49000, 49001⟩, submit_ok := true,
    pos_query := some 50000, close_ok := true }

/-- The same environment with a fresh bar timestamp 6. -/
def newBarEnv : CycleEnv :=
  { staleEnv with bar_time := 6 }

/-- A valid bar: high 2, low 1, close 1. -/
def bar5a : Bar := ⟨0, 0, 1, 2, 1, 1, 1⟩

/-- A valid successor bar: high 3, low 1, close 2. -/
def bar5b : Bar := ⟨1, 0, 2, 3, 1, 2, 1⟩

/-- A bar whose volume is zero: its session's cumulative volume — the
denominator of the VWAP quotient — is zero. -/
def zeroVolBar : Bar := ⟨0, 0, 100, 101, 99, 100, 0⟩

/-- A bar with positive volume 2. -/
def volBar : Bar := ⟨0, 0, 100, 101, 99, 100, 2⟩

/-! ### Basic lemmas about the cycle driver -/

/-- A fetch/length failure ends the iteration at the first `continue`. -/
theorem cycleStep_data_fail (s : BotState) (e : CycleEnv) (h : e.data_ok = false) :
    cycleStep s e = (s, skipLog) := by
  simp [cycleStep, h]

/-- An unchanged latest-bar timestamp ends the iteration at the second
`continue` (lines 214-216), before indicators, signal, exit check and the
cooldown decrement. -/
theorem cycleStep_stale (s : BotState) (e : CycleEnv)
    (h : s.last_bar_time = some e.bar_time) : cycleStep s e = (s, skipLog) := by
  rcases he : e.data_ok with _ | _
  · simp [cycleStep, he]
  · simp [cycleStep, he, h]

/-- With good data and a fresh bar time the loop body runs. -/
theorem cycleStep_new (s : BotState) (e : CycleEnv) (h : e.data_ok = true)
    (h2 : s.last_bar_time ≠ some e.bar_time) : cycleStep s e = newBarStep s e := by
  simp [cycleStep, h, h2]

/-- A failed `place_order` sends no email: the zero-quote early return and
the `except` branch both skip `send_email`. -/
theorem place_order_fail_no_email (q : Quote) (ok : Bool)
    (h : (place_order q ok).1 = false) : (place_order q ok).2 = [] := by
  unfold place_order at *
  split_ifs at * <;> simp_all

/-- Day bookkeeping never touches the position fields. -/
theorem rollover_in_trade (s : BotState) (e : CycleEnv) :
    (rollover s e).in_trade = s.in_trade := by
  simp only [rollover]
  split_ifs <;> rfl

/-- Within the stored trading day, the rollover only records the bar time. -/
theorem rollover_same_day (s : BotState) (e : CycleEnv)
    (h : s.last_trade_day = some e.bar_day) :
    rollover s e = { s with last_bar_time := some e.bar_time } := by
  simp [rollover, h]

/-- The exit check only writes `in_trade`; throttle and risk fields pass
through. -/
theorem exitStep_keeps (s3 : BotState) (e : CycleEnv) (log : CycleLog) :
    (exitStep s3 e log).1.trades_today = s3.trades_today ∧
    (exitStep s3 e log).1.cooldown = s3.cooldown ∧
    (exitStep s3 e log).1.last_risk = s3.last_risk ∧
    (exitStep s3 e log).1.last_signal = s3.last_signal := by
  simp only [exitStep]
  split_ifs <;> simp

/-- The exit-check log update keeps the entry-branch fields. -/
theorem exitStep_log_keeps (s3 : BotState) (e : CycleEnv) (log : CycleLog) :
    (exitStep s3 e log).2.order_attempted = log.order_attempted ∧
    (exitStep s3 e log).2.order_success = log.order_success ∧
    (exitStep s3 e log).2.emails = log.emails ∧
    (exitStep s3 e log).2.can_enter_val = log.can_enter_val ∧
    (exitStep s3 e log).2.evaluated_signal = log.evaluated_signal := by
  simp only [exitStep]
  split_ifs <;> simp

/-- With the cooldown already zero, the end-of-cycle decrement is a no-op. -/
theorem decay_of_zero (s : BotState) (h : s.cooldown = 0) : decay s = s := by
  simp [decay, h]

/-- The decrement only writes `cooldown`. -/
theorem decay_keeps (s : BotState) :
    (decay s).trades_today = s.trades_today ∧
    (decay s).in_trade = s.in_trade ∧
    (decay s).last_risk = s.last_risk ∧
    (decay s).last_signal = s.last_signal := by
  simp only [decay]
  split_ifs <;> simp

/-- A successful `place_order` sends exactly the trade-opened email
(line 186). -/
theorem place_order_success_email (q : Quote) (ok : Bool)
    (h : (place_order q ok).1 = true) : (place_order q ok).2 = ["TRADE OPENED"] := by
  unfold place_order at *
  split_ifs at * <;> simp_all

/-- Evaluation of the entry branches when the long test holds and the
order fills (lines 273-281). -/
theorem entryStep_long_success (s2 : BotState) (e : CycleEnv)
    (hl : longCond e.ind s2) (hpo : (place_order e.order_quote e.submit_ok).1 = true) :
    entryStep s2 e =
      ({ s2 with trades_today := s2.trades_today + 1, cooldown := COOLDOWN_BARS,
                 in_trade := true, last_signal := some Side.buy,
                 last_risk := some (e.ind.close - sl_long e.ind) },
       { skipped := false, evaluated_signal := true, can_enter_val := true,
         order_attempted := true, order_success := true, emails := ["TRADE OPENED"],
         exit_check_ran := false, close_requested := false }) := by
  have hm := place_order_success_email e.order_quote e.submit_ok hpo
  simp [entryStep, hl, hpo, hm, hl.1]

/-- Evaluation of the entry branches when only the short test holds and
the order fills (lines 283-291). -/
theorem entryStep_short_success (s2 : BotState) (e : CycleEnv)
    (hl : ¬ longCond e.ind s2) (hs : shortCond e.ind s2)
    (hpo : (place_order e.order_quote e.submit_ok).1 = true) :
    entryStep s2 e =
      ({ s2 with trades_today := s2.trades_today + 1, cooldown := COOLDOWN_BARS,
                 in_trade := true, last_signal := some Side.sell,
                 last_risk := some (sl_short e.ind - e.ind.close) },
       { skipped := false, evaluated_signal := true, can_enter_val := true,
         order_attempted := true, order_success := true, emails := ["TRADE OPENED"],
         exit_check_ran := false, close_requested := false }) := by
  have hm := place_order_success_email e.order_quote e.submit_ok hpo
  simp [entryStep, hl, hs, hpo, hm, hs.1]

/-- When neither entry test holds the branch block is a no-op. -/
theorem entryStep_no_signal (s2 : BotState) (e : CycleEnv)
    (hl : ¬ longCond e.ind s2) (hs : ¬ shortCond e.ind s2) :
    entryStep s2 e =
      (s2, { skipped := false, evaluated_signal := true,
             can_enter_val := decide (can_enter s2), order_attempted := false,
             order_success := false, emails := [], exit_check_ran := false,
             close_requested := false }) := by
  simp [entryStep, hl, hs]

/-- Whatever branch ran, a success flag in the log means the state took
the full open-position update of lines 277-281 / 287-291. -/
theorem entryStep_success_fields (s2 : BotState) (e : CycleEnv)
    (h : (entryStep s2 e).2.order_success = true) :
    (entryStep s2 e).1.cooldown = COOLDOWN_BARS ∧
    (entryStep s2 e).1.trades_today = s2.trades_today + 1 ∧
    (entryStep s2 e).1.in_trade = true := by
  simp only [entryStep] at *
  split_ifs at * <;> simp_all

/-- With a fired signal but a failed order the loop body only performs
the rollover: no counter moves, no email goes out. -/
theorem newBarStep_fail (s : BotState) (e : CycleEnv)
    (hsig : longCond e.ind (rollover s e) ∨ shortCond e.ind (rollover s e))
    (hpo : (place_order e.order_quote e.submit_ok).1 = false) :
    newBarStep s e =
      (rollover s e,
       { skipped := false, evaluated_signal := true, can_enter_val := true,
         order_attempted := true, order_success := false, emails := [],
         exit_check_ran := false, close_requested := false }) := by
  have hce : can_enter (rollover s e) := by rcases hsig with h | h <;> exact h.1
  have hin : (rollover s e).in_trade = false := by
    rcases hsig with h | h <;> exact h.2.2.2.2.2
  have h0 : (rollover s e).cooldown = 0 := hce.1
  have hmail := place_order_fail_no_email e.order_quote e.submit_ok hpo
  have hent : entryStep (rollover s e) e =
      (rollover s e,
       { skipped := false, evaluated_signal := true, can_enter_val := true,
         order_attempted := true, order_success := false, emails := [],
         exit_check_ran := false, close_requested := false }) := by
    by_cases hl : longCond e.ind (rollover s e)
    · simp [entryStep, hl, hpo, hmail, hce]
    · have hs : shortCond e.ind (rollover s e) := hsig.resolve_left hl
      simp [entryStep, hl, hs, hpo, hmail, hce]
  simp [newBarStep, hent, exitStep, hin, decay, h0]

/-- A success flag after the whole body means the cycle ends with the
cooldown at `COOLDOWN_BARS - 1`: line 278/288 sets it to `COOLDOWN_BARS`
and lines 311-312 decrement it in the same iteration. -/
theorem newBarStep_success_cooldown (s : BotState) (e : CycleEnv)
    (h : (newBarStep s e).2.order_success = true) :
    (newBarStep s e).1.cooldown = COOLDOWN_BARS - 1 := by
  simp only [newBarStep] at h ⊢
  rw [(exitStep_log_keeps _ _ _).2.1] at h
  have hc := (entryStep_success_fields (rollover s e) e h).1
  have he : (exitStep (entryStep (rollover s e) e).1 e
      (entryStep (rollover s e) e).2).1.cooldown = COOLDOWN_BARS := by
    rw [(exitStep_keeps _ _ _).2.1]
    exact hc
  simp [decay, he, COOLDOWN_BARS]

/-- Full evaluation of one cycle from `freshState` through `longEnv`: the
long order fills (trade count 1, cooldown `10 - 1 = 9`), and the exit
check then sees the degenerate stored risk `100 - 200 = -100` and
immediately requests a close. -/
theorem eval_long :
    cycleStep freshState longEnv =
      ({ trades_today := 1, last_trade_day := some 0, cooldown := 9,
         last_bar_time := some 1, in_trade := false, last_signal := some Side.buy,
         last_risk := some (-100) },
       { skipped := false, evaluated_signal := true, can_enter_val := true,
         order_attempted := true, order_success := true, emails := ["TRADE OPENED"],
         exit_check_ran := true, close_requested := true }) := by
  norm_num [cycleStep, newBarStep, rollover, entryStep, exitStep, decay, place_order,
    trackerStep, freshState, longEnv, longInputs, can_enter, longCond, shortCond,
    longCondG, shortCondG, bullishG, bearishG, vol_okG, trend_upG, trend_downG,
    htf_bull, htf_bear, sl_long, sl_short, body_pct, EPS, MAX_TRADES_PER_DAY,
    COOLDOWN_BARS, RISK_REWARD, SL_ATR_BUFFER, MIN_BODY_PCT, VOL_MULT,
    USE_BODY_FILTER, USE_VOLUME_FILTER, USE_EMA_FILTER, skipLog]
  simp

/-- Full evaluation of one cycle from `freshState` through `longFailEnv`:
the long entry fires, the broker rejects, and the cycle ends having only
recorded the new bar time — and sent no email. -/
theorem eval_long_fail :
    cycleStep freshState longFailEnv =
      ({ trades_today := 0, last_trade_day := some 0, cooldown := 0,
         last_bar_time := some 1, in_trade := false, last_signal := none,
         last_risk := none },
       { skipped := false, evaluated_signal := true, can_enter_val := true,
         order_attempted := true, order_success := false, emails := [],
         exit_check_ran := false, close_requested := false }) := by
  norm_num [cycleStep, newBarStep, rollover, entryStep, exitStep, decay, place_order,
    trackerStep, freshState, longEnv, longFailEnv, longInputs, can_enter, longCond,
    shortCond, longCondG, shortCondG, bullishG, bearishG, vol_okG, trend_upG,
    trend_downG, htf_bull, htf_bear, sl_long, sl_short, body_pct, EPS,
    MAX_TRADES_PER_DAY, COOLDOWN_BARS, RISK_REWARD, SL_ATR_BUFFER, MIN_BODY_PCT,
    VOL_MULT, USE_BODY_FILTER, USE_VOLUME_FILTER, USE_EMA_FILTER, skipLog]
  simp

/-- Full evaluation of one cycle from `openState` through `newBarEnv`
(fresh bar 6, no entry possible: cooldown 3 and a position already open):
the exit check runs, stops out at bid 49000, and the cooldown decrements
to 2. -/
theorem eval_new_bar_open :
    cycleStep openState newBarEnv =
      ({ trades_today := 1, last_trade_day := some 0, cooldown := 2,
         last_bar_time := some 6, in_trade := false, last_signal := some Side.buy,
         last_risk := some 500 },
       { skipped := false, evaluated_signal := true, can_enter_val := false,
         order_attempted := false, order_success := false, emails := [],
         exit_check_ran := true, close_requested := true }) := by
  norm_num [cycleStep, newBarStep, rollover, entryStep, exitStep, decay, place_order,
    trackerStep, openState, staleEnv, newBarEnv, longInputs, can_enter, longCond,
    shortCond, longCondG, shortCondG, bullishG, bearishG, vol_okG, trend_upG,
    trend_downG, htf_bull, htf_bear, sl_long, sl_short, body_pct, EPS,
    MAX_TRADES_PER_DAY, COOLDOWN_BARS, RISK_REWARD, SL_ATR_BUFFER, MIN_BODY_PCT,
    VOL_MULT, USE_BODY_FILTER, USE_VOLUME_FILTER, USE_EMA_FILTER, skipLog]

/-! ### Lemmas about the indicator functions -/

/-- `trAux` produces one true-range value per bar. -/
theorem trAux_length (prev : Bar) (l : List Bar) : (trAux prev l).length = l.length := by
  induction l generalizing prev with
  | nil => rfl
  | cons b rest ih => simp [trAux, ih]

/-- The true-range series has the length of the bar series. -/
theorem trueRange_length (df : List Bar) : (trueRange df).length = df.length := by
  cases df with
  | nil => rfl
  | cons b rest => simp [trueRange, trAux_length]

/-- For bars with `low ≤ high`, every tail true-range value is
non-negative (each is a max over `high - low`). -/
theorem trAux_nonneg (prev : Bar) (l : List Bar) (h : ∀ b ∈ l, b.low ≤ b.high) :
    ∀ x ∈ trAux prev l, 0 ≤ x := by
  induction l generalizing prev with
  | nil =>
      intro x hx
      simp [trAux] at hx
  | cons b rest ih =>
      intro x hx
      simp only [trAux, List.mem_cons] at hx
      rcases hx with hx | hx
      · exact hx ▸ le_max_of_le_left (sub_nonneg.mpr (h b (by simp)))
      · exact ih b (fun c hc => h c (by simp [hc])) x hx

/-- For bars with `low ≤ high`, every true-range value is non-negative. -/
theorem trueRange_nonneg (df : List Bar) (h : ∀ b ∈ df, b.low ≤ b.high) :
    ∀ x ∈ trueRange df, 0 ≤ x := by
  cases df with
  | nil =>
      intro x hx
      simp [trueRange] at hx
  | cons b rest =>
      intro x hx
      simp only [trueRange, List.mem_cons] at hx
      rcases hx with hx | hx
      · exact hx ▸ sub_nonneg.mpr (h b (by simp))
      · exact trAux_nonneg b rest (fun c hc => h c (by simp [hc])) x hx

/-- Pointwise description of the rolling mean. -/
theorem rollingMean_get (xs : List ℚ) (period i : Nat) (h : i < xs.length) :
    (rollingMean xs period)[i]? =
      some (if period ≤ i + 1 then
        some ((((xs.take (i + 1)).drop (i + 1 - period)).sum) / (period : ℚ))
      else none) := by
  simp [rollingMean, List.getElem?_map, List.getElem?_range, h]

/-- `cumByDay` has the length of the bar series. -/
theorem cumByDay_length (f : Bar → ℚ) (df : List Bar) :
    (cumByDay f df).length = df.length := by
  simp [cumByDay]

/-- Pointwise description of `zipWith` at an index present in both
lists. -/
theorem zipWith_get_of_get {α β γ : Type} (f : α → β → γ) (as : List α) (bs : List β)
    (k : Nat) (a : α) (b : β) (ha : as[k]? = some a) (hb : bs[k]? = some b) :
    (List.zipWith f as bs)[k]? = some (f a b) := by
  induction as generalizing bs k with
  | nil => simp at ha
  | cons x xs ih =>
      cases bs with
      | nil => simp at hb
      | cons y ys =>
          cases k with
          | zero =>
              simp at ha hb
              simp [ha, hb]
          | succ n =>
              simp at ha hb
              simpa using ih ys n ha hb

/-! ### Claim theorems -/

/-- C1 counterexample: a cycle that polls bar timestamp 5 again while a
Long position is open (entry 50000 tracked with risk 500) and the live bid
49000 is through the stop threshold; the code `continue`s at line 216, so
the exit check does not run, no close is requested, and the state is
returned unchanged with the position still flagged open. -/
theorem C1_cex_stale_poll_skips_exit_check :
    openState.in_trade = true ∧
    staleEnv.pos_query = some 50000 ∧
    staleEnv.quote.bid ≤ 50000 - 500 ∧
    (cycleStep openState staleEnv).2.exit_check_ran = false ∧
    (cycleStep openState staleEnv).2.close_requested = false ∧
    (cycleStep openState staleEnv).1 = openState := by
  have h := cycleStep_stale openState staleEnv rfl
  refine ⟨rfl, rfl, by norm_num [staleEnv], ?_, ?_, ?_⟩ <;> simp [h, skipLog]

/-- C1 amended: a cycle with an unchanged latest-bar timestamp skips the
whole iteration body — the state is returned untouched and in particular
the Position Tracker exit check does not run; the exit check runs only on
cycles with good data and a new bar timestamp. -/
theorem C1_exit_check_only_on_new_bars :
    (∀ (s : BotState) (e : CycleEnv), e.data_ok = true →
        s.last_bar_time = some e.bar_time → cycleStep s e = (s, skipLog)) ∧
    (∀ (s : BotState) (e : CycleEnv), (cycleStep s e).2.exit_check_ran = true →
        e.data_ok = true ∧ s.last_bar_time ≠ some e.bar_time) := by
  constructor
  · intro s e _ h2
    exact cycleStep_stale s e h2
  · intro s e h
    rcases hd : e.data_ok with _ | _
    · rw [cycleStep_data_fail s e hd] at h
      simp [skipLog] at h
    · by_cases hb : s.last_bar_time = some e.bar_time
      · rw [cycleStep_stale s e hb] at h
        simp [skipLog] at h
      · exact ⟨rfl, hb⟩

/-- C1 witness: both parts of the amended claim applied at concrete
cycles — the stale poll of `staleEnv` returns the state unchanged, and the
exit check that ran in the `longEnv` cycle implies that cycle saw a new
bar. -/
theorem C1_witness :
    cycleStep openState staleEnv = (openState, skipLog) ∧
    (longEnv.data_ok = true ∧ freshState.last_bar_time ≠ some longEnv.bar_time) :=
  ⟨C1_exit_check_only_on_new_bars.1 openState staleEnv rfl rfl,
   C1_exit_check_only_on_new_bars.2 freshState longEnv (by rw [eval_long])⟩

/-- C6: a cycle observing the same latest-bar timestamp leaves
`trades_today` and `cooldown` unchanged and performs no signal evaluation
for that bar; and the cooldown can only decrease on a cycle with good data
and a new bar timestamp. -/
theorem C6_stale_poll_no_effect :
    (∀ (s : BotState) (e : CycleEnv), s.last_bar_time = some e.bar_time →
        (cycleStep s e).1.trades_today = s.trades_today ∧
        (cycleStep s e).1.cooldown = s.cooldown ∧
        (cycleStep s e).2.evaluated_signal = false) ∧
    (∀ (s : BotState) (e : CycleEnv), (cycleStep s e).1.cooldown < s.cooldown →
        e.data_ok = true ∧ s.last_bar_time ≠ some e.bar_time) := by
  constructor
  · intro s e h
    rw [cycleStep_stale s e h]
    simp [skipLog]
  · intro s e h
    rcases hd : e.data_ok with _ | _
    · rw [cycleStep_data_fail s e hd] at h
      simp at h
    · by_cases hb : s.last_bar_time = some e.bar_time
      · rw [cycleStep_stale s e hb] at h
        simp at h
      · exact ⟨rfl, hb⟩

/-- C6 witness: the stale poll of `staleEnv` leaves the open-position
state's counters untouched with no signal evaluation, and the concrete
cooldown decrease observed in the `newBarEnv` cycle (3 to 2) implies that
cycle saw a new bar. -/
theorem C6_witness :
    ((cycleStep openState staleEnv).1.trades_today = openState.trades_today ∧
     (cycleStep openState staleEnv).1.cooldown = openState.cooldown ∧
     (cycleStep openState staleEnv).2.evaluated_signal = false) ∧
    (newBarEnv.data_ok = true ∧ openState.last_bar_time ≠ some newBarEnv.bar_time) :=
  ⟨C6_stale_poll_no_effect.1 openState staleEnv rfl,
   C6_stale_poll_no_effect.2 openState newBarEnv
     (by rw [eval_new_bar_open]; norm_num [openState])⟩

/-- C4 counterexample: from a fresh state the long entry fires, the
broker rejects the order (`submit_ok = false`), and the cycle ends with
the throttle and position state unchanged (only the new bar time is
recorded) but with an empty email list: the failure produced no
notification, contradicting the claim that one is sent. -/
theorem C4_cex_no_failure_notification :
    (cycleStep freshState longFailEnv).2.order_attempted = true ∧
    (cycleStep freshState longFailEnv).2.order_success = false ∧
    (cycleStep freshState longFailEnv).2.emails = [] ∧
    (cycleStep freshState longFailEnv).1 = { freshState with last_bar_time := some 1 } := by
  rw [eval_long_fail]
  exact ⟨rfl, rfl, rfl, rfl⟩

/-- C4 amended: when a signal fires but order submission fails (zeroed
quote or broker exception), no state transition occurs — `trades_today`,
`cooldown` and `in_trade` are unchanged from before the attempt — but no
failure notification is sent either (`place_order` only prints `ORDER
FAILED`); the iteration then continues normally. -/
theorem C4_order_failure_no_transition :
    ∀ (s : BotState) (e : CycleEnv), e.data_ok = true →
      s.last_bar_time ≠ some e.bar_time →
      (longCond e.ind (rollover s e) ∨ shortCond e.ind (rollover s e)) →
      (place_order e.order_quote e.submit_ok).1 = false →
      (cycleStep s e).2.order_attempted = true ∧
      (cycleStep s e).2.order_success = false ∧
      (cycleStep s e).2.emails = [] ∧
      (cycleStep s e).1.trades_today = (rollover s e).trades_today ∧
      (cycleStep s e).1.cooldown = (rollover s e).cooldown ∧
      (cycleStep s e).1.in_trade = s.in_trade := by
  intro s e hd hb hsig hpo
  rw [cycleStep_new s e hd hb, newBarStep_fail s e hsig hpo]
  exact ⟨rfl, rfl, rfl, rfl, rfl, rollover_in_trade s e⟩

/-- C4 witness: the amended claim applied to the concrete rejected long
order of `longFailEnv`. -/
theorem C4_witness :
    (cycleStep freshState longFailEnv).2.order_attempted = true ∧
    (cycleStep freshState longFailEnv).2.order_success = false ∧
    (cycleStep freshState longFailEnv).2.emails = [] ∧
    (cycleStep freshState longFailEnv).1.trades_today =
      (rollover freshState longFailEnv).trades_today ∧
    (cycleStep freshState longFailEnv).1.cooldown =
      (rollover freshState longFailEnv).cooldown ∧
    (cycleStep freshState longFailEnv).1.in_trade = freshState.in_trade :=
  C4_order_failure_no_transition freshState longFailEnv rfl
    (by simp [freshState, longFailEnv, longEnv])
    (Or.inl (by
      norm_num [longCond, longCondG, bullishG, vol_okG, trend_upG, htf_bull, can_enter, rollover, freshState, longFailEnv, longEnv, longInputs, body_pct, EPS,
        MAX_TRADES_PER_DAY, MIN_BODY_PCT, VOL_MULT, USE_BODY_FILTER,
        USE_VOLUME_FILTER, USE_EMA_FILTER]))
    (by norm_num [place_order, longFailEnv, longEnv])

/-- C2 counterexample: in the `longEnv` cycle the order fills with
`sl_long = 200` above the close 100 (a degenerate stop), so the stored
risk distance is `close - sl_long = -100`, which is negative and therefore
differs from `|entry - stopLoss|` for every possible entry price. -/
theorem C2_cex_negative_risk :
    (cycleStep freshState longEnv).2.order_success = true ∧
    longEnv.ind.close = 100 ∧
    sl_long longEnv.ind = 200 ∧
    (cycleStep freshState longEnv).1.last_risk = some (-100) ∧
    ∀ entry : ℚ, |entry - sl_long longEnv.ind| ≠ (-100 : ℚ) := by
  refine ⟨by rw [eval_long], rfl,
    by norm_num [sl_long, longEnv, longInputs, SL_ATR_BUFFER],
    by rw [eval_long], ?_⟩
  intro entry h
  have h0 := abs_nonneg (entry - sl_long longEnv.ind)
  rw [h] at h0
  norm_num at h0

/-- C2 amended: the stored risk distance is `close - sl_long` for a Long
and `sl_short - close` for a Short — taken from the signal bar's close
with no absolute value, so it equals the absolute entry-to-stop distance
only when the stop lies on the loss side of the close; the tracker's
take-profit threshold is indeed the stored risk times `RISK_REWARD`. -/
theorem C2_risk_distance_formula :
    ∀ (s : BotState) (e : CycleEnv), e.data_ok = true →
      s.last_bar_time ≠ some e.bar_time →
      (place_order e.order_quote e.submit_ok).1 = true →
      ((longCond e.ind (rollover s e) →
          (cycleStep s e).1.last_risk = some (e.ind.close - sl_long e.ind)) ∧
       (¬ longCond e.ind (rollover s e) → shortCond e.ind (rollover s e) →
          (cycleStep s e).1.last_risk = some (sl_short e.ind - e.ind.close)) ∧
       (sl_long e.ind < e.ind.close →
          e.ind.close - sl_long e.ind = |e.ind.close - sl_long e.ind|) ∧
       (e.ind.close < sl_short e.ind →
          sl_short e.ind - e.ind.close = |sl_short e.ind - e.ind.close|) ∧
       (∀ (entry r : ℚ) (q : Quote) (c : Bool), entry + r * RISK_REWARD ≤ q.bid →
          (trackerStep (some Side.buy) (some r) (some entry) q c).2 = true) ∧
       (∀ (entry r : ℚ) (q : Quote) (c : Bool), q.ask ≤ entry - r * RISK_REWARD →
          (trackerStep (some Side.sell) (some r) (some entry) q c).2 = true)) := by
  intro s e hd hb hpo
  refine ⟨?_, ?_, ?_, ?_, ?_, ?_⟩
  · intro hl
    rw [cycleStep_new s e hd hb]
    simp only [newBarStep]
    rw [(decay_keeps _).2.2.1, (exitStep_keeps _ _ _).2.2.1,
      entryStep_long_success (rollover s e) e hl hpo]
  · intro hl hs
    rw [cycleStep_new s e hd hb]
    simp only [newBarStep]
    rw [(decay_keeps _).2.2.1, (exitStep_keeps _ _ _).2.2.1,
      entryStep_short_success (rollover s e) e hl hs hpo]
  · intro h
    exact (abs_of_pos (sub_pos.mpr h)).symm
  · intro h
    exact (abs_of_pos (sub_pos.mpr h)).symm
  · intro entry r q c h
    simp only [trackerStep]
    split_ifs with h1 h2 <;> simp_all
  · intro entry r q c h
    simp only [trackerStep]
    split_ifs with h1 h2 <;> simp_all

/-- C2 witness: the amended formula applied to the filled long order of
`longEnv`, whose stored risk is `close - sl_long = 100 - 200`. -/
theorem C2_witness :
    (cycleStep freshState longEnv).1.last_risk =
      some (longEnv.ind.close - sl_long longEnv.ind) :=
  (C2_risk_distance_formula freshState longEnv rfl
      (by simp [freshState, longEnv])
      (by norm_num [place_order, longEnv])).1
    (by norm_num [longCond, longCondG, bullishG, vol_okG, trend_upG, htf_bull, can_enter, rollover, freshState, longFailEnv, longEnv, longInputs, body_pct, EPS,
        MAX_TRADES_PER_DAY, MIN_BODY_PCT, VOL_MULT, USE_BODY_FILTER,
        USE_VOLUME_FILTER, USE_EMA_FILTER])

/-- C10: a cycle whose order fills ends with `cooldown = COOLDOWN_BARS -
1 = 9`, because the end-of-cycle decrement (lines 311-312) runs in the
same iteration that set `cooldown = COOLDOWN_BARS`; on each following
same-day new bar with a positive cooldown, entry is refused and the
cooldown drops by one, and once it reaches zero (after `COOLDOWN_BARS - 1`
such bars) entry is permitted again if the daily cap allows. -/
theorem C10_cooldown_ends_at_nine :
    (∀ (s : BotState) (e : CycleEnv), (cycleStep s e).2.order_success = true →
        (cycleStep s e).1.cooldown = COOLDOWN_BARS - 1) ∧
    (∀ (s : BotState) (e : CycleEnv), e.data_ok = true →
        s.last_bar_time ≠ some e.bar_time → s.last_trade_day = some e.bar_day →
        0 < s.cooldown →
        (cycleStep s e).2.can_enter_val = false ∧
        (cycleStep s e).2.order_attempted = false ∧
        (cycleStep s e).1.cooldown = s.cooldown - 1) ∧
    (∀ (s : BotState) (e : CycleEnv), e.data_ok = true →
        s.last_bar_time ≠ some e.bar_time → s.last_trade_day = some e.bar_day →
        s.cooldown = 0 → s.trades_today < MAX_TRADES_PER_DAY →
        (cycleStep s e).2.can_enter_val = true) ∧
    COOLDOWN_BARS - 1 = 9 := by
  refine ⟨?_, ?_, ?_, by norm_num [COOLDOWN_BARS]⟩
  · intro s e h
    rcases hd : e.data_ok with _ | _
    · rw [cycleStep_data_fail s e hd] at h ⊢
      simp [skipLog] at h
    · by_cases hb : s.last_bar_time = some e.bar_time
      · rw [cycleStep_stale s e hb] at h ⊢
        simp [skipLog] at h
      · rw [cycleStep_new s e hd hb] at h ⊢
        exact newBarStep_success_cooldown s e h
  · intro s e hd hb hday hcd
    rw [cycleStep_new s e hd hb]
    have hroll := rollover_same_day s e hday
    have hce : ¬ can_enter (rollover s e) := by
      rw [hroll]
      rintro ⟨h0, _⟩
      simp at h0
      omega
    have hl : ¬ longCond e.ind (rollover s e) := fun h => hce h.1
    have hs : ¬ shortCond e.ind (rollover s e) := fun h => hce h.1
    have hent := entryStep_no_signal (rollover s e) e hl hs
    have hcool : (rollover s e).cooldown = s.cooldown := by rw [hroll]
    refine ⟨?_, ?_, ?_⟩
    · simp only [newBarStep, hent]
      rw [(exitStep_log_keeps _ _ _).2.2.2.1]
      simp [decide_eq_false hce]
    · simp only [newBarStep, hent]
      rw [(exitStep_log_keeps _ _ _).1]
    · simp only [newBarStep, hent]
      have he : ∀ log, (exitStep (rollover s e) e log).1.cooldown = s.cooldown := by
        intro log
        rw [(exitStep_keeps _ _ _).2.1, hcool]
      simp [decay, he, hcd]
  · intro s e hd hb hday h0 htr
    rw [cycleStep_new s e hd hb]
    have hce : can_enter (rollover s e) := by
      rw [rollover_same_day s e hday]
      exact ⟨h0, htr⟩
    simp only [newBarStep]
    rw [(exitStep_log_keeps _ _ _).2.2.2.1]
    simp only [entryStep]
    split_ifs <;> simp [hce]

/-- C10 witness: the filled order in the `longEnv` cycle ends with
cooldown 9; the `newBarEnv` cycle from cooldown 3 refuses entry and drops
to 2; a fresh same-day cycle with cooldown 0 and 0 trades re-permits
entry. -/
theorem C10_witness :
    (cycleStep freshState longEnv).1.cooldown = COOLDOWN_BARS - 1 ∧
    ((cycleStep openState newBarEnv).2.can_enter_val = false ∧
     (cycleStep openState newBarEnv).2.order_attempted = false ∧
     (cycleStep openState newBarEnv).1.cooldown = openState.cooldown - 1) ∧
    (cycleStep freshState longEnv).2.can_enter_val = true :=
  ⟨C10_cooldown_ends_at_nine.1 freshState longEnv (by rw [eval_long]),
   C10_cooldown_ends_at_nine.2.1 openState newBarEnv rfl
     (by simp [openState, newBarEnv, staleEnv]) rfl (by norm_num [openState]),
   C10_cooldown_ends_at_nine.2.2.1 freshState longEnv rfl
     (by simp [freshState, longEnv]) rfl rfl
     (by norm_num [freshState, MAX_TRADES_PER_DAY])⟩

/-- C3: while a Long position is open the tracker uses the bid and
requests a close iff `bid ≤ entry − risk` or `bid ≥ entry + risk × 2.5`;
while a Short is open it uses the ask and closes iff `ask ≥ entry + risk`
or `ask ≤ entry − risk × 2.5`; strictly between the thresholds no close is
requested.  The concrete conjuncts check entry 50000, risk 500, ratio 2.5:
bid 49500 closes, 51250 closes, 50200 does not — with the ask quantified,
showing the Long exit never reads it. -/
theorem C3_exit_conditions :
    (∀ (entry r : ℚ) (q : Quote) (c : Bool),
        (trackerStep (some Side.buy) (some r) (some entry) q c).2 = true ↔
          (q.bid ≤ entry - r ∨ q.bid ≥ entry + r * RISK_REWARD)) ∧
    (∀ (entry r : ℚ) (q : Quote) (c : Bool),
        (trackerStep (some Side.sell) (some r) (some entry) q c).2 = true ↔
          (q.ask ≥ entry + r ∨ q.ask ≤ entry - r * RISK_REWARD)) ∧
    (∀ (c : Bool) (ask : ℚ),
        (trackerStep (some Side.buy) (some 500) (some 50000) ⟨49500, ask⟩ c).2 = true) ∧
    (∀ (c : Bool) (ask : ℚ),
        (trackerStep (some Side.buy) (some 500) (some 50000) ⟨51250, ask⟩ c).2 = true) ∧
    (∀ (c : Bool) (ask : ℚ),
        (trackerStep (some Side.buy) (some 500) (some 50000) ⟨50200, ask⟩ c).2 = false) := by
  refine ⟨?_, ?_, ?_, ?_, ?_⟩
  · intro entry r q c
    simp only [trackerStep]
    split_ifs with h1 h2 <;> simp_all
  · intro entry r q c
    simp only [trackerStep]
    split_ifs with h1 h2 <;> simp_all
  · intro c ask
    norm_num [trackerStep, RISK_REWARD]
  · intro c ask
    norm_num [trackerStep, RISK_REWARD]
  · intro c ask
    norm_num [trackerStep, RISK_REWARD]

/-- C9: the tracker transitions to Flat whenever a close is requested,
for every outcome of the close call (the close result `c'` is quantified
independently of anything else: lines 302/307 and the `except` at line 309
both clear `in_trade`), and a failed position-status query (`posq = none`,
the `except` at line 308) also leaves the tracker Flat. -/
theorem C9_flat_on_failures :
    (∀ (sig : Option Side) (risk : Option ℚ) (q : Quote) (c : Bool),
        (trackerStep sig risk none q c).1 = false) ∧
    (∀ (sig : Option Side) (risk posq : Option ℚ) (q : Quote) (c c' : Bool),
        (trackerStep sig risk posq q c).2 = true →
          (trackerStep sig risk posq q c').1 = false) := by
  constructor
  · intro sig risk q c
    simp [trackerStep]
  · intro sig risk posq q c c' h
    rcases posq with _ | entry
    · simp [trackerStep]
    · rcases risk with _ | r
      · simp [trackerStep]
      · simp only [trackerStep] at h ⊢
        split_ifs at h ⊢ <;> simp_all

/-- C9 witness: a Long at entry 50000 with risk 500 sees bid 49000 (stop
condition met); even with the close call failing (`c' = false`) the
tracker ends Flat. -/
theorem C9_witness :
    (trackerStep (some Side.buy) (some 500) (some 50000) ⟨49000, 49001⟩ false).1 = false :=
  C9_flat_on_failures.2 (some Side.buy) (some 500) (some 50000) ⟨49000, 49001⟩ true false
    (by norm_num [trackerStep, RISK_REWARD])

/-- C8: for every combination of inputs, filter toggles and throttle
state, the Long test of line 273 and the Short test of line 283 never both
hold (they demand `htf_close > htf_open` and `htf_close < htf_open`
respectively), and a bearish higher-timeframe bar alone rules out the Long
signal. -/
theorem C8_mutual_exclusion :
    ∀ (ub uv ue : Bool) (i : Inputs) (s : BotState),
      (¬ (longCondG ub uv ue i s ∧ shortCondG ub uv ue i s)) ∧
      (i.htf_close < i.htf_open → ¬ longCondG ub uv ue i s) := by
  intro ub uv ue i s
  constructor
  · rintro ⟨hl, hs⟩
    exact absurd hl.2.1 (asymm hs.2.1)
  · intro hbear hl
    exact absurd hl.2.1 (asymm hbear)

/-- C8 witness: at a concrete input whose higher-timeframe bar is bearish
(close 9 < open 10) while every entry-timeframe long condition holds, the
Long signal does not fire, and Long and Short do not both fire. -/
theorem C8_witness :
    (¬ (longCondG false false true w8Inputs w8State ∧
        shortCondG false false true w8Inputs w8State)) ∧
    (¬ longCondG false false true w8Inputs w8State) :=
  ⟨(C8_mutual_exclusion false false true w8Inputs w8State).1,
   (C8_mutual_exclusion false false true w8Inputs w8State).2 (by norm_num [w8Inputs])⟩

/-- C5 counterexample: for the two valid bars `bar5a, bar5b` and
`period = 2` (the claim quantifies over every period), the series length
is `≥ period`, the index `1` is `< period`, yet `ATR[1]` is defined — it
equals `(1 + 2) / 2 = 3/2` — contradicting "undefined for `i < period`":
`rolling(period).mean()` is already defined at 0-based index
`period - 1`. -/
theorem C5_cex_defined_at_period_minus_one :
    2 ≤ ([bar5a, bar5b] : List Bar).length ∧
    (1 : Nat) < 2 ∧
    (atr [bar5a, bar5b] 2)[1]? = some (some (3 / 2)) := by
  refine ⟨by norm_num, by norm_num, ?_⟩
  norm_num [atr, rollingMean, trueRange, trAux, bar5a, bar5b, List.range_succ]

/-- C5 amended: `tr[0]` is `high[0] - low[0]`, and for every bar series
of valid bars and every positive period, `ATR[i]` (0-based) is undefined
for `i + 1 < period` — that is, up to index `period - 2` — and a
(finite, being rational) non-negative number from index `period - 1` on. -/
theorem C5_atr_definedness :
    (∀ (b : Bar) (rest : List Bar), (trueRange (b :: rest)).head? = some (b.high - b.low)) ∧
    (∀ (df : List Bar) (period i : Nat), 0 < period → period ≤ df.length →
      (∀ b ∈ df, b.low ≤ b.high) → i < df.length →
      ((i + 1 < period → (atr df period)[i]? = some none) ∧
       (period ≤ i + 1 → ∃ q, (atr df period)[i]? = some (some q) ∧ 0 ≤ q))) := by
  constructor
  · intro b rest
    rfl
  · intro df period i hp _ hvalid hi
    have hi' : i < (trueRange df).length := by
      rw [trueRange_length]
      exact hi
    constructor
    · intro hlt
      rw [atr, rollingMean_get _ _ _ hi', if_neg (by omega)]
    · intro hge
      rw [atr, rollingMean_get _ _ _ hi', if_pos hge]
      refine ⟨_, rfl, ?_⟩
      apply div_nonneg
      · apply List.sum_nonneg
        intro x hx
        exact trueRange_nonneg df hvalid x
          (List.mem_of_mem_take (List.mem_of_mem_drop hx))
      · positivity

/-- C5 witness: the amended bounds applied at the concrete series
`[bar5a, bar5b]` with period 2: index 0 is undefined, index 1 carries a
non-negative value. -/
theorem C5_witness :
    (atr [bar5a, bar5b] 2)[0]? = some none ∧
    ∃ q, (atr [bar5a, bar5b] 2)[1]? = some (some q) ∧ 0 ≤ q :=
  ⟨((C5_atr_definedness.2 [bar5a, bar5b] 2 0 (by norm_num) (by norm_num)
      (by
        intro b hb
        rcases List.mem_pair.mp hb with h | h <;> subst h <;> norm_num [bar5a, bar5b])
      (by norm_num)).1 (by norm_num)),
   ((C5_atr_definedness.2 [bar5a, bar5b] 2 1 (by norm_num) (by norm_num)
      (by
        intro b hb
        rcases List.mem_pair.mp hb with h | h <;> subst h <;> norm_num [bar5a, bar5b])
      (by norm_num)).2 (by norm_num))⟩

/-- C7 counterexample: a session consisting of the zero-volume bar makes
the cumulative volume — the VWAP denominator at line 131 — equal to 0, so
the unguarded quotient `cum_pv / cum_vol` is `0 / 0`: an undefined value
(float NaN), not a finite number, and it is `ltf['vwap'].iloc[-1]` that
the trend predicates of lines 246-247 then compare. -/
theorem C7_cex_unguarded_vwap :
    cum_vol [zeroVolBar] = [0] ∧ vwap [zeroVolBar] = [none] := by
  constructor
  · norm_num [cum_vol, cumByDay, zeroVolBar]
  · norm_num [vwap, cum_pv, cum_vol, cumByDay, pv, typical_price, zeroVolBar]

/-- C7 amended: the body-fraction denominator `high - low + 1e-8` is
positive whenever `low ≤ high`, so that division is guarded; the VWAP
quotient is unguarded: at any bar its value is undefined exactly when the
cumulative session volume there is zero, and a finite rational otherwise. -/
theorem C7_division_guards :
    (∀ i : Inputs, i.low ≤ i.high → 0 < body_den i) ∧
    (∀ (df : List Bar) (k : Nat) (v : ℚ), (cum_vol df)[k]? = some v →
      ((v = 0 → (vwap df)[k]? = some none) ∧
       (v ≠ 0 → ∃ q, (vwap df)[k]? = some (some q)))) := by
  constructor
  · intro i h
    have he : (0 : ℚ) < EPS := by norm_num [EPS]
    have : (0 : ℚ) ≤ i.high - i.low := sub_nonneg.mpr h
    unfold body_den
    linarith
  · intro df k v hv
    have hk : k < (cum_vol df).length := by
      by_contra hk
      rw [List.getElem?_eq_none (Nat.le_of_not_lt hk)] at hv
      exact Option.noConfusion hv
    have hk' : k < (cum_pv df).length := by
      rw [cum_pv, cumByDay_length]
      rw [cum_vol, cumByDay_length] at hk
      exact hk
    have hp : (cum_pv df)[k]? = some (cum_pv df)[k] := List.getElem?_eq_getElem hk'
    have hz := zipWith_get_of_get (fun p v => if v = 0 then none else some (p / v))
      (cum_pv df) (cum_vol df) k _ _ hp hv
    rw [vwap] at *
    constructor
    · intro h0
      rw [hz, h0]
      simp
    · intro h0
      refine ⟨(cum_pv df)[k] / v, ?_⟩
      rw [hz]
      simp [h0]

/-- C7 witness: the guards applied concretely — `body_den` of the
scenario inputs is positive, and the VWAP value over the positive-volume
bar is a defined finite rational. -/
theorem C7_witness :
    0 < body_den longInputs ∧
    ∃ q, (vwap [volBar])[0]? = some (some q) :=
  ⟨C7_division_guards.1 longInputs (by norm_num [longInputs]),
   (C7_division_guards.2 [volBar] 0 2
      (by norm_num [cum_vol, cumByDay, volBar])).2 (by norm_num)⟩

end AlpacaBot
